import Mathlib

/-!
Verification of the translation core of migrate_vault.py, a Bitwarden to
1Password vault migrator.  The source items are JSON dictionaries; we embed
JSON values as the inductive type JVal and the Python exceptions that the
translation layer can raise as the inductive type Err.  Fallible code is
embedded in the Except monad.  Destination documents are always built by the
code as dictionaries with a statically known key set, so we embed them as the
record type Document.
-/

namespace MigrateVault

/-- A JSON value, as produced by json.loads.  Objects are association lists
with unique keys (json.loads keeps the last binding of a duplicate key, so
parsed objects never contain duplicates); numbers are modelled as integers
(no float appears on any path the claims touch). -/
inductive JVal where
  | null
  | str (s : String)
  | num (n : Int)
  | bool (b : Bool)
  | arr (xs : List JVal)
  | obj (kvs : List (String × JVal))

/-- The exceptions the translation layer can raise.  KeyError comes from a
missing dictionary key.  The two ValueError raise sites of the source are kept
distinct by constructor; both carry the Python class ValueError (see
Err.pyClass).  TypeError stands for the TypeError or AttributeError raised by
indexing, iterating or calling .get on a value of the wrong shape. -/
inductive Err where
  | keyError (k : String)
  | invalidYear (y : String)
  | unsupportedType (t : String)
  | typeError
deriving DecidableEq

/-- The Python exception class of each modelled error. -/
def Err.pyClass : Err → String
  | .keyError _ => "KeyError"
  | .invalidYear _ => "ValueError"
  | .unsupportedType _ => "ValueError"
  | .typeError => "TypeError"

/-- The error kinds the design taxonomy calls ValidationError: a required
source field is missing (absent key) or malformed (invalid year length). -/
def Err.isValidationError : Err → Bool
  | .keyError _ => true
  | .invalidYear _ => true
  | _ => false

/-- The error kind the design taxonomy calls UnsupportedTypeError. -/
def Err.isUnsupportedTypeError : Err → Bool
  | .unsupportedType _ => true
  | _ => false

/-- Python truthiness of a JSON value: None, empty string, zero, False and
empty containers are falsy. -/
def JVal.truthy : JVal → Bool
  | .null => false
  | .str s => !(s == "")
  | .num n => !(n == 0)
  | .bool b => b
  | .arr xs => !xs.isEmpty
  | .obj kvs => !kvs.isEmpty

/-- Whether a JSON value is a scalar (not a list or object).  The str() of a
container is not modelled, so theorems that feed unknown values through
string interpolation restrict them to scalars. -/
def JVal.isScalar : JVal → Bool
  | .arr _ => false
  | .obj _ => false
  | _ => true

/-- Python str() on a scalar JSON value, as used by f-string interpolation.
On the container cases, which no claim exercises, the repr is not modelled
and the empty string stands in. -/
def pyStr : JVal → String
  | .null => "None"
  | .str s => s
  | .num n => toString n
  | .bool b => if b then "True" else "False"
  | .arr _ => ""
  | .obj _ => ""

/-- Dictionary indexing, item[k]: KeyError on a missing key, TypeError when
the value is not a dictionary. -/
def JVal.get (v : JVal) (k : String) : Except Err JVal :=
  match v with
  | .obj kvs =>
    match kvs.lookup k with
    | some x => Except.ok x
    | none => Except.error (Err.keyError k)
  | _ => Except.error Err.typeError

/-- Dictionary lookup with default, item.get(k, d): never raises on a
dictionary; AttributeError (modelled as typeError) otherwise. -/
def JVal.getD (v : JVal) (k : String) (d : JVal) : Except Err JVal :=
  match v with
  | .obj kvs => Except.ok ((kvs.lookup k).getD d)
  | _ => Except.error Err.typeError

/-- Whether a dictionary has the given key. -/
def JVal.hasKey (v : JVal) (k : String) : Bool :=
  match v with
  | .obj kvs => (kvs.lookup k).isSome
  | _ => false

/-- Python equality of a JSON value against an integer literal, as in
item["type"] == 1.  A Python bool is an int, so True == 1 and False == 0. -/
def JVal.eqInt (v : JVal) (n : Int) : Bool :=
  match v with
  | .num m => m == n
  | .bool b => (if b then (1 : Int) else 0) == n
  | _ => false

/-- Iterating a JSON value as a list; iterating anything else raises
TypeError (iteration of strings and dictionaries is not on any claimed
path and is conservatively folded into the same error). -/
def asArr : JVal → Except Err (List JVal)
  | .arr xs => Except.ok xs
  | _ => Except.error Err.typeError

/-- Python str.zfill: left-pad with zeros to the given width, keeping a
leading sign in front of the padding.  The width counts the sign. -/
def zfill (w : Nat) (s : String) : String :=
  if w ≤ s.length then s
  else
    match s.data with
    | c :: rest =>
      if c = '-' || c = '+' then
        String.mk (c :: (List.replicate (w - s.length) '0' ++ rest))
      else
        String.mk (List.replicate (w - s.length) '0' ++ s.data)
    | [] => String.mk (List.replicate w '0')

/-- translate_month_year_field: format a month and year as YYYY/MM.  Empty
or absent month or year yields the empty string; a 1 or 2 digit year is
prefixed with 20 after zero-padding; a 4 digit year is used verbatim; any
other year length raises ValueError. -/
def translate_month_year_field (month year : JVal) : Except Err String :=
  if !month.truthy || !year.truthy then
    Except.ok ""
  else
    let m := zfill 2 (pyStr month)
    let y := pyStr year
    if y.length ≤ 2 then
      Except.ok ("20" ++ zfill 2 y ++ "/" ++ m)
    else if y.length ≠ 4 then
      Except.error (Err.invalidYear y)
    else
      Except.ok (y ++ "/" ++ m)

/-- translate_address_field: build the multi-line address string from the
identity sub-dictionary.  Only truthy components contribute; city and postal
code share one line, state and country share one line. -/
def translate_address_field (item : JVal) : Except Err String := do
  let identity ← item.get "identity"
  let a1 ← identity.get "address1"
  let a2 ← identity.get "address2"
  let a3 ← identity.get "address3"
  let city ← identity.get "city"
  let postal ← identity.get "postalCode"
  let state ← identity.get "state"
  let country ← identity.get "country"
  let lines :=
    (if a1.truthy then [pyStr a1] else []) ++
    (if a2.truthy then [pyStr a2] else []) ++
    (if a3.truthy then [pyStr a3] else []) ++
    (if city.truthy || postal.truthy then [pyStr city ++ " " ++ pyStr postal] else []) ++
    (if state.truthy || country.truthy then [pyStr state ++ ", " ++ pyStr country] else [])
  pure (String.intercalate "\n" lines)

/-- A section declared in a destination document: the dictionaries
appended to the documents sections list, with keys id and label. -/
structure DocSection where
  id : String
  label : String
deriving DecidableEq

/-- The section sub-dictionary attached to a destination field.  The
identity fields carry both id and label; the custom fields carry only the
id, which the Option models. -/
structure SectionRef where
  id : String
  label : Option String
deriving DecidableEq

/-- A destination field: the dictionaries appended to a documents fields
list.  Every key that some field omits is an Option, with none standing for
the absent key. -/
structure Field where
  id : Option String
  sectionRef : Option SectionRef
  type : String
  purpose : Option String
  label : Option JVal
  value : JVal

/-- A destination document.  The source always builds these dictionaries
with a statically known key set: title, category, fields always present,
sections and urls present only for some kinds (none models the absent
key). -/
structure Document where
  title : JVal
  category : String
  sections : Option (List DocSection)
  fields : List Field
  urls : Option (List JVal)

/-- The urls list of a login document: one entry per source uri, keeping
order.  Each Python entry is the singleton dictionary with key href; we
record the href value.  A KeyError on the key uri aborts the whole
translation. -/
def translate_uris : List JVal → Except Err (List JVal)
  | [] => Except.ok []
  | u :: rest => do
    let href ← u.get "uri"
    let tail ← translate_uris rest
    pure (href :: tail)

/-- The value of the appended one-time-password field: the f-string
otpauth URI built from the raw item name, username and totp seed. -/
def totpValue (name username totp : JVal) : String :=
  "otpauth://totp/" ++ pyStr name ++ ":" ++ pyStr username ++ "?secret=" ++ pyStr totp

/-- translate_login: the per-kind translator for type 1 items.  Emits the
username, password and notes fields and the urls list, and appends a totp
field when the totp seed is truthy. -/
def translate_login (item : JVal) : Except Err Document := do
  let name ← item.get "name"
  let login ← item.get "login"
  let username ← login.get "username"
  let password ← login.get "password"
  let notes ← item.get "notes"
  let urisJ ← login.get "uris"
  let uris ← asArr urisJ
  let hrefs ← translate_uris uris
  let totp ← login.getD "totp" JVal.null
  let baseFields : List Field :=
    [ { id := some "username", sectionRef := none, type := "STRING",
        purpose := some "USERNAME", label := some (JVal.str "username"), value := username },
      { id := some "password", sectionRef := none, type := "CONCEALED",
        purpose := some "PASSWORD", label := some (JVal.str "password"), value := password },
      { id := some "notesPlain", sectionRef := none, type := "STRING",
        purpose := some "NOTES", label := some (JVal.str "notes"), value := notes } ]
  let fields :=
    if totp.truthy then
      baseFields ++
        [ { id := some "totp", sectionRef := none, type := "OTP",
            purpose := none, label := none, value := JVal.str (totpValue name username totp) } ]
    else baseFields
  pure { title := name, category := "LOGIN", sections := none,
         fields := fields, urls := some hrefs }

/-- translate_secure_note: the per-kind translator for type 2 items. -/
def translate_secure_note (item : JVal) : Except Err Document := do
  let name ← item.get "name"
  let notes ← item.get "notes"
  pure { title := name, category := "SECURE_NOTE", sections := none,
         fields :=
           [ { id := some "notesPlain", sectionRef := none, type := "STRING",
               purpose := some "NOTES", label := some (JVal.str "Notes"), value := notes } ],
         urls := none }

/-- translate_card: the per-kind translator for type 3 items.  The expiry
field value comes from translate_month_year_field, whose ValueError
propagates. -/
def translate_card (item : JVal) : Except Err Document := do
  let name ← item.get "name"
  let notes ← item.get "notes"
  let card ← item.get "card"
  let cardholderName ← card.get "cardholderName"
  let brand ← card.get "brand"
  let number ← card.get "number"
  let code ← card.get "code"
  let expMonth ← card.get "expMonth"
  let expYear ← card.get "expYear"
  let expiry ← translate_month_year_field expMonth expYear
  pure { title := name, category := "CREDIT_CARD", sections := none,
         fields :=
           [ { id := some "notesPlain", sectionRef := none, type := "STRING",
               purpose := some "NOTES", label := some (JVal.str "notes"), value := notes },
             { id := some "cardholder", sectionRef := none, type := "STRING",
               purpose := none, label := some (JVal.str "cardholder name"), value := cardholderName },
             { id := some "type", sectionRef := none, type := "CREDIT_CARD_TYPE",
               purpose := none, label := some (JVal.str "type"), value := brand },
             { id := some "ccnum", sectionRef := none, type := "CREDIT_CARD_NUMBER",
               purpose := none, label := some (JVal.str "number"), value := number },
             { id := some "cvv", sectionRef := none, type := "CONCEALED",
               purpose := none, label := some (JVal.str "verification number"), value := code },
             { id := some "expiry", sectionRef := none, type := "MONTH_YEAR",
               purpose := none, label := some (JVal.str "expiry date"), value := JVal.str expiry } ],
         urls := none }

/-- The three sections every identity document declares. -/
def identitySections : List DocSection :=
  [ { id := "address", label := "Address" },
    { id := "name", label := "Identification" },
    { id := "internet", label := "Internet Details" } ]

/-- translate_identity: the per-kind translator for type 4 items.  Declares
three sections and emits the notes field plus nine sectioned fields; the
address field value comes from translate_address_field. -/
def translate_identity (item : JVal) : Except Err Document := do
  let name ← item.get "name"
  let notes ← item.get "notes"
  let identity ← item.get "identity"
  let title ← identity.get "title"
  let firstName ← identity.get "firstName"
  let middleName ← identity.get "middleName"
  let lastName ← identity.get "lastName"
  let company ← identity.get "company"
  let address ← translate_address_field item
  let phone ← identity.get "phone"
  let username ← identity.get "username"
  let email ← identity.get "email"
  pure { title := name, category := "IDENTITY", sections := some identitySections,
         fields :=
           [ { id := some "notesPlain", sectionRef := none, type := "STRING",
               purpose := some "NOTES", label := some (JVal.str "notes"), value := notes },
             { id := some "title", sectionRef := some { id := "name", label := some "Identification" },
               type := "STRING", purpose := none, label := some (JVal.str "title"), value := title },
             { id := some "firstname", sectionRef := some { id := "name", label := some "Identification" },
               type := "STRING", purpose := none, label := some (JVal.str "first name"), value := firstName },
             { id := some "middlename", sectionRef := some { id := "name", label := some "Identification" },
               type := "STRING", purpose := none, label := some (JVal.str "middle name"), value := middleName },
             { id := some "lastname", sectionRef := some { id := "name", label := some "Identification" },
               type := "STRING", purpose := none, label := some (JVal.str "last name"), value := lastName },
             { id := some "company", sectionRef := some { id := "name", label := some "Identification" },
               type := "STRING", purpose := none, label := some (JVal.str "company"), value := company },
             { id := some "address", sectionRef := some { id := "address", label := some "Address" },
               type := "STRING", purpose := none, label := some (JVal.str "address"), value := JVal.str address },
             { id := some "phone", sectionRef := some { id := "address", label := some "Address" },
               type := "PHONE", purpose := none, label := some (JVal.str "phone"), value := phone },
             { id := some "username", sectionRef := some { id := "internet", label := some "Internet Details" },
               type := "STRING", purpose := none, label := some (JVal.str "username"), value := username },
             { id := some "email", sectionRef := some { id := "internet", label := some "Internet Details" },
               type := "STRING", purpose := none, label := some (JVal.str "email"), value := email } ],
         urls := none }

/-- The body of the custom-fields loop: source fields of type 3 (linked)
are skipped; every other field becomes a destination field in the
custom_fields section, CONCEALED when the source type is 1 (hidden) and
STRING otherwise, labelled by the source field name and carrying the source
field value.  Order is preserved and the first KeyError aborts. -/
def translate_custom_fields : List JVal → Except Err (List Field)
  | [] => Except.ok []
  | f :: rest => do
    let t ← f.get "type"
    if t.eqInt 3 then
      translate_custom_fields rest
    else do
      let name ← f.get "name"
      let value ← f.get "value"
      let tail ← translate_custom_fields rest
      pure ({ id := none, sectionRef := some { id := "custom_fields", label := none },
              type := if t.eqInt 1 then "CONCEALED" else "STRING",
              purpose := none, label := some name, value := value } :: tail)

/-- The section dictionary appended for custom fields. -/
def customFieldsSection : DocSection := { id := "custom_fields", label := "Custom Fields" }

/-- append_custom_fields: translate the source custom fields (item.get with
default of the empty list) and, when at least one survives, append them to
the document fields after initializing the sections list if absent and
adding the custom_fields section. -/
def append_custom_fields (item : JVal) (doc : Document) : Except Err Document := do
  let fieldsJ ← item.getD "fields" (JVal.arr [])
  let fs ← asArr fieldsJ
  let translated ← translate_custom_fields fs
  if translated.isEmpty then
    pure doc
  else
    pure { doc with
           sections := some (doc.sections.getD [] ++ [customFieldsSection]),
           fields := doc.fields ++ translated }

/-- translate: dispatch on the integer item type (1 login, 2 secure note,
3 card, 4 identity), raising ValueError for any other type, then run the
custom-fields pass on the result. -/
def translate (item : JVal) : Except Err Document := do
  let t ← item.get "type"
  let translated_item ←
    if t.eqInt 1 then translate_login item
    else if t.eqInt 2 then translate_secure_note item
    else if t.eqInt 3 then translate_card item
    else if t.eqInt 4 then translate_identity item
    else Except.error (Err.unsupportedType (pyStr t))
  append_custom_fields item translated_item

/-- The action the orchestrator retry loop takes on a failed item: the
first except clause catches KeyError and skips the item immediately; the
generic except clause asks whether to skip or retry. -/
inductive OrchestratorAction where
  | skipItem
  | promptRetry
deriving DecidableEq

/-- Classify an error the way the orchestrator except clauses do. -/
def orchestrator_handle (e : Err) : OrchestratorAction :=
  match e with
  | .keyError _ => OrchestratorAction.skipItem
  | _ => OrchestratorAction.promptRetry

/-! ## Auxiliary definitions used by the claim statements -/

/-- An identity item carrying exactly the string address components the
address formatter reads. -/
def mkIdentityAddress (a1 a2 a3 city postal state country : String) : JVal :=
  JVal.obj [("identity", JVal.obj
    [ ("address1", JVal.str a1), ("address2", JVal.str a2), ("address3", JVal.str a3),
      ("city", JVal.str city), ("postalCode", JVal.str postal),
      ("state", JVal.str state), ("country", JVal.str country) ])]

/-- The line list the claim describes for the address formatter: the
non-empty address lines in order, then one city-postal line when either is
non-empty, then one state-country line when either is non-empty. -/
def addressLinesSpec (a1 a2 a3 city postal state country : String) : List String :=
  (if a1 ≠ "" then [a1] else []) ++
  (if a2 ≠ "" then [a2] else []) ++
  (if a3 ≠ "" then [a3] else []) ++
  (if city ≠ "" ∨ postal ≠ "" then [city ++ " " ++ postal] else []) ++
  (if state ≠ "" ∨ country ≠ "" then [state ++ ", " ++ country] else [])

/-- Extract the value of a field when it is the one-time-password field. -/
def otpFieldValue (f : Field) : Option JVal :=
  if f.type = "OTP" then some f.value else none

/-- The section ids a document declares, in order. -/
def Document.sectionIds (d : Document) : List String :=
  (d.sections.getD []).map DocSection.id

/-- The section cross-reference invariant the specification states: every
field that references a section by id has exactly one section with that id
in the document. -/
def Document.secInvariant (d : Document) : Prop :=
  ∀ f ∈ d.fields, ∀ r, f.sectionRef = some r → d.sectionIds.count r.id = 1

/-- Whether a source custom field is well formed: a dictionary whose type
is an integer code and which carries name and value keys. -/
def customFieldWF (f : JVal) : Bool :=
  match f with
  | JVal.obj kvs =>
    (match kvs.lookup "type" with
     | some (JVal.num _) => true
     | _ => false) &&
    (kvs.lookup "name").isSome && (kvs.lookup "value").isSome
  | _ => false

/-- The destination field the claim describes for one source custom field,
following the claim wording: a field of kind LINKED (code 3) is dropped;
every other field maps to a destination field with section id
custom_fields, destination kind HIDDEN (the string CONCEALED) when the
source kind is HIDDEN (code 1) and TEXT (the string STRING) otherwise,
label the source name, value the source value, and no purpose. -/
def customFieldSpec (f : JVal) : Option Field :=
  match f with
  | JVal.obj kvs =>
    match kvs.lookup "type", kvs.lookup "name", kvs.lookup "value" with
    | some t, some name, some value =>
      if t.eqInt 3 then none
      else some { id := none, sectionRef := some { id := "custom_fields", label := none },
                  type := if t.eqInt 1 then "CONCEALED" else "STRING",
                  purpose := none, label := some name, value := value }
    | _, _, _ => none
  | _ => none

/-- One hex digit, uppercase. -/
def hexDigit (n : Nat) : Char :=
  if n < 10 then Char.ofNat (48 + n) else Char.ofNat (55 + n)

/-- Percent-encode one byte. -/
def percentByte (b : Nat) : String :=
  String.mk ['%', hexDigit (b / 16), hexDigit (b % 16)]

/-- The UTF-8 bytes of one character. -/
def utf8Bytes (c : Char) : List Nat :=
  let n := c.toNat
  if n < 128 then [n]
  else if n < 2048 then [192 + n / 64, 128 + n % 64]
  else if n < 65536 then [224 + n / 4096, 128 + (n / 64) % 64, 128 + n % 64]
  else [240 + n / 262144, 128 + (n / 4096) % 64, 128 + (n / 64) % 64, 128 + n % 64]

/-- The URL-encoding the claim asserts for the name and username of the
totp URI, following the claim wording (RFC 3986 percent-encoding with the
unreserved characters and the slash kept, as the Python quote helper
performs it).  The source performs no such encoding; this definition exists
only to state the claimed form. -/
def urlencode (s : String) : String :=
  String.join (s.data.map (fun c =>
    if c.isAlphanum || c = '-' || c = '.' || c = '_' || c = '~' || c = '/' then
      String.mk [c]
    else
      String.join ((utf8Bytes c).map percentByte)))

/-- The totp URI value the claim describes: URL-encoded name and username
around the literal scheme, the seed verbatim. -/
def totpValueSpec (name username seed : String) : String :=
  "otpauth://totp/" ++ urlencode name ++ ":" ++ urlencode username ++
    "?secret=" ++ seed

/-! ## Plumbing lemmas -/

/-- Inversion of a successful Except bind. -/
theorem bind_ok {α β : Type} {x : Except Err α} {f : α → Except Err β} {b : β}
    (h : (x >>= f) = Except.ok b) : ∃ a, x = Except.ok a ∧ f a = Except.ok b := by
  cases x with
  | ok a => exact ⟨a, rfl, h⟩
  | error e => exact Except.noConfusion h

/-! ## Month and year formatter (claims C1, C5, C10) -/

/-- Claim C1 counterexample: at the concrete input of an empty month and a
valid four-digit year, translate_month_year_field returns the empty string
successfully; it does not fail, contradicting the claim that an empty or
absent month always yields a ValidationError. -/
theorem c1_counterexample :
    (JVal.str "").truthy = false ∧
    translate_month_year_field (JVal.str "") (JVal.str "2024") = Except.ok "" ∧
    ¬ ∃ e, translate_month_year_field (JVal.str "") (JVal.str "2024") = Except.error e := by
  refine ⟨rfl, rfl, ?_⟩
  rintro ⟨e, he⟩
  rw [show translate_month_year_field (JVal.str "") (JVal.str "2024") = Except.ok "" from rfl] at he
  exact Except.noConfusion he

/-- Claim C1 (amended): when the month or the year is empty or absent
(falsy), translate_month_year_field returns the empty string instead of
failing. -/
theorem c1_empty_month_or_year_returns_empty (month year : JVal)
    (h : month.truthy = false ∨ year.truthy = false) :
    translate_month_year_field month year = Except.ok "" := by
  unfold translate_month_year_field
  rcases h with h | h <;> simp [h]

/-- Claim C1 witness: the amended statement at the concrete input of an
absent month. -/
theorem c1_witness :
    translate_month_year_field JVal.null (JVal.str "2024") = Except.ok "" :=
  c1_empty_month_or_year_returns_empty JVal.null (JVal.str "2024") (Or.inl rfl)

/-- Claim C5: on truthy month and year, the formatter returns YYYY/MM with
the month zero-padded to two digits; a year whose string has at most two
characters is zero-padded to two and prefixed with 20, a four-character
year is used verbatim, and any other length fails with the invalid-year
ValueError the design taxonomy calls ValidationError. -/
theorem c5_month_year_format (month year : JVal)
    (hm : month.truthy = true) (hy : year.truthy = true) :
    ((pyStr year).length ≤ 2 →
      translate_month_year_field month year =
        Except.ok ("20" ++ zfill 2 (pyStr year) ++ "/" ++ zfill 2 (pyStr month))) ∧
    ((pyStr year).length = 4 →
      translate_month_year_field month year =
        Except.ok (pyStr year ++ "/" ++ zfill 2 (pyStr month))) ∧
    ((pyStr year).length > 2 ∧ (pyStr year).length ≠ 4 →
      translate_month_year_field month year =
        Except.error (Err.invalidYear (pyStr year)) ∧
        (Err.invalidYear (pyStr year)).isValidationError = true) := by
  refine ⟨?_, ?_, ?_⟩
  · intro h
    simp [translate_month_year_field, hm, hy, h]
  · intro h
    have h2 : ¬ (pyStr year).length ≤ 2 := by omega
    simp [translate_month_year_field, hm, hy, h, h2]
  · rintro ⟨h1, h2⟩
    have h3 : ¬ (pyStr year).length ≤ 2 := by omega
    exact ⟨by simp [translate_month_year_field, hm, hy, h2, h3], rfl⟩

/-- Claim C5 witness: the four concrete examples of the claim, derived by
applying the general statement. -/
theorem c5_witness :
    translate_month_year_field (JVal.num 3) (JVal.num 9) = Except.ok "2009/03" ∧
    translate_month_year_field (JVal.num 12) (JVal.str "99") = Except.ok "2099/12" ∧
    translate_month_year_field (JVal.num 1) (JVal.str "2024") = Except.ok "2024/01" ∧
    translate_month_year_field (JVal.num 1) (JVal.str "123") =
      Except.error (Err.invalidYear "123") := by
  refine ⟨?_, ?_, ?_, ?_⟩
  · exact ((c5_month_year_format (JVal.num 3) (JVal.num 9)
      (by decide) (by decide)).1 (by decide)).trans (congrArg Except.ok (by decide))
  · exact ((c5_month_year_format (JVal.num 12) (JVal.str "99")
      (by decide) (by decide)).1 (by decide)).trans (congrArg Except.ok (by decide))
  · exact ((c5_month_year_format (JVal.num 1) (JVal.str "2024")
      (by decide) (by decide)).2.1 (by decide)).trans (congrArg Except.ok (by decide))
  · exact ((c5_month_year_format (JVal.num 1) (JVal.str "123")
      (by decide) (by decide)).2.2 (by decide)).1

/-- Claim C10: the formatter never inspects the numeric range of the month;
on any truthy month and any year of accepted length the result is a success
whose month part is just the stringified month zero-padded, so month 13
passes through. -/
theorem c10_no_month_range_check (month year : JVal)
    (hm : month.truthy = true) (hy : year.truthy = true)
    (hlen : (pyStr year).length ≤ 2 ∨ (pyStr year).length = 4) :
    translate_month_year_field month year =
      Except.ok ((if (pyStr year).length ≤ 2 then "20" ++ zfill 2 (pyStr year)
                  else pyStr year) ++ "/" ++ zfill 2 (pyStr month)) := by
  by_cases h2 : (pyStr year).length ≤ 2
  · rw [if_pos h2]
    simp [translate_month_year_field, hm, hy, h2]
  · have h4 : (pyStr year).length = 4 := by
      rcases hlen with h | h
      · exact absurd h h2
      · exact h
    rw [if_neg h2]
    simp [translate_month_year_field, hm, hy, h2, h4]

/-- Claim C10 witness: month 13 with year 2024 is accepted and yields
2024/13. -/
theorem c10_witness :
    translate_month_year_field (JVal.num 13) (JVal.str "2024") = Except.ok "2024/13" :=
  (c10_no_month_range_check (JVal.num 13) (JVal.str "2024")
    (by decide) (by decide) (Or.inr (by decide))).trans (congrArg Except.ok (by decide))

/-! ## Address formatter (claim C8) -/

/-- Claim C8: on every identity item with string address components, the
address formatter returns exactly the newline join (hence no trailing
newline) of the claimed line list; in particular all-empty components give
the empty string, city Springfield with postal code 00000 alone gives one
line, and a full component set gives the five lines in order. -/
theorem c8_address_format :
    (∀ a1 a2 a3 city postal state country : String,
      translate_address_field (mkIdentityAddress a1 a2 a3 city postal state country) =
        Except.ok (String.intercalate "\n"
          (addressLinesSpec a1 a2 a3 city postal state country))) ∧
    translate_address_field (mkIdentityAddress "" "" "" "" "" "" "") = Except.ok "" ∧
    translate_address_field (mkIdentityAddress "" "" "" "Springfield" "00000" "" "") =
      Except.ok "Springfield 00000" ∧
    translate_address_field (mkIdentityAddress "a1" "a2" "a3" "ci" "po" "st" "co") =
      Except.ok ("a1" ++ "\n" ++ "a2" ++ "\n" ++ "a3" ++ "\n" ++ "ci po" ++ "\n" ++ "st, co") := by
  have general : ∀ a1 a2 a3 city postal state country : String,
      translate_address_field (mkIdentityAddress a1 a2 a3 city postal state country) =
        Except.ok (String.intercalate "\n"
          (addressLinesSpec a1 a2 a3 city postal state country)) := by
    intro a1 a2 a3 city postal state country
    have seg : ∀ s : String,
        (if (JVal.str s).truthy then [pyStr (JVal.str s)] else ([] : List String)) =
          (if s ≠ "" then [s] else []) := by
      intro s
      by_cases h : s = "" <;> simp [JVal.truthy, pyStr, h]
    have seg2 : ∀ s t sep : String,
        (if (JVal.str s).truthy || (JVal.str t).truthy
         then [pyStr (JVal.str s) ++ sep ++ pyStr (JVal.str t)] else ([] : List String)) =
          (if s ≠ "" ∨ t ≠ "" then [s ++ sep ++ t] else []) := by
      intro s t sep
      by_cases hs : s = "" <;> by_cases ht : t = "" <;> simp [JVal.truthy, pyStr, hs, ht]
    calc translate_address_field (mkIdentityAddress a1 a2 a3 city postal state country)
        = Except.ok (String.intercalate "\n" (
            (if (JVal.str a1).truthy then [pyStr (JVal.str a1)] else []) ++
            (if (JVal.str a2).truthy then [pyStr (JVal.str a2)] else []) ++
            (if (JVal.str a3).truthy then [pyStr (JVal.str a3)] else []) ++
            (if (JVal.str city).truthy || (JVal.str postal).truthy
             then [pyStr (JVal.str city) ++ " " ++ pyStr (JVal.str postal)] else []) ++
            (if (JVal.str state).truthy || (JVal.str country).truthy
             then [pyStr (JVal.str state) ++ ", " ++ pyStr (JVal.str country)] else []))) := rfl
      _ = Except.ok (String.intercalate "\n"
            (addressLinesSpec a1 a2 a3 city postal state country)) := by
          rw [addressLinesSpec, seg a1, seg a2, seg a3,
            seg2 city postal " ", seg2 state country ", "]
  refine ⟨general, ?_, ?_, ?_⟩
  · exact (general "" "" "" "" "" "" "").trans (congrArg Except.ok (by decide))
  · exact (general "" "" "" "Springfield" "00000" "" "").trans (congrArg Except.ok (by decide))
  · exact (general "a1" "a2" "a3" "ci" "po" "st" "co").trans (congrArg Except.ok (by decide))

/-! ## More plumbing: bind reductions and dictionary lookup inversions -/

/-- Bind on a success reduces to the continuation. -/
theorem ok_bind {α β : Type} (a : α) (f : α → Except Err β) :
    (Except.ok a >>= f) = f a := rfl

/-- Bind on an error propagates the error. -/
theorem error_bind {α β : Type} (e : Err) (f : α → Except Err β) :
    ((Except.error e : Except Err α) >>= f) = Except.error e := rfl

/-- A successful dictionary access means the value was an object. -/
theorem get_ok_obj {v : JVal} {k : String} {x : JVal} (h : v.get k = Except.ok x) :
    ∃ kvs, v = JVal.obj kvs := by
  cases v with
  | obj kvs => exact ⟨kvs, rfl⟩
  | null => exact Except.noConfusion h
  | str s => exact Except.noConfusion h
  | num n => exact Except.noConfusion h
  | bool b => exact Except.noConfusion h
  | arr xs => exact Except.noConfusion h

/-- A failing access on an object is exactly the KeyError for that key. -/
theorem get_error_on_obj {kvs : List (String × JVal)} {k : String} {e : Err}
    (h : (JVal.obj kvs).get k = Except.error e) : e = Err.keyError k := by
  simp only [JVal.get] at h
  split at h
  · exact Except.noConfusion h
  · exact (Except.error.inj h).symm

/-- Accessing a key an object does not carry raises its KeyError. -/
theorem get_eq_keyError_of_not_hasKey {kvs : List (String × JVal)} {k : String}
    (h : (JVal.obj kvs).hasKey k = false) :
    (JVal.obj kvs).get k = Except.error (Err.keyError k) := by
  simp only [JVal.hasKey] at h
  simp only [JVal.get]
  cases hl : kvs.lookup k
  · rfl
  · rw [hl] at h
    simp at h

/-! ## Determinism (claim C9) -/

/-- Claim C9: translate is a deterministic pure function of its argument;
two successful runs on the same item yield structurally identical
documents. -/
theorem c9_translate_deterministic (item : JVal) (d1 d2 : Document)
    (h1 : translate item = Except.ok d1) (h2 : translate item = Except.ok d2) :
    d1 = d2 := by
  rw [h1] at h2
  exact Except.ok.inj h2

/-- Claim C9 witness: a concrete secure note translated twice gives the
same document. -/
theorem c9_witness :
    ({ title := JVal.str "n", category := "SECURE_NOTE", sections := none,
       fields := [ { id := some "notesPlain", sectionRef := none, type := "STRING",
                     purpose := some "NOTES", label := some (JVal.str "Notes"),
                     value := JVal.str "t" } ],
       urls := none } : Document) =
    ({ title := JVal.str "n", category := "SECURE_NOTE", sections := none,
       fields := [ { id := some "notesPlain", sectionRef := none, type := "STRING",
                     purpose := some "NOTES", label := some (JVal.str "Notes"),
                     value := JVal.str "t" } ],
       urls := none } : Document) :=
  c9_translate_deterministic
    (JVal.obj [("type", JVal.num 2), ("name", JVal.str "n"), ("notes", JVal.str "t")])
    _ _ rfl rfl

/-! ## Unsupported item types (claim C7) -/

/-- Claim C7: an item whose type matches none of 1, 2, 3, 4 fails with the
unsupported-type ValueError carrying the stringified type, an error kind
distinct from every ValidationError of the taxonomy; and translation is
all-or-nothing: a failing translate returns no document at all. -/
theorem c7_unsupported_type (item t : JVal)
    (ht : item.get "type" = Except.ok t)
    (h1 : t.eqInt 1 = false) (h2 : t.eqInt 2 = false)
    (h3 : t.eqInt 3 = false) (h4 : t.eqInt 4 = false) :
    translate item = Except.error (Err.unsupportedType (pyStr t)) ∧
    (Err.unsupportedType (pyStr t)).isUnsupportedTypeError = true ∧
    (Err.unsupportedType (pyStr t)).isValidationError = false ∧
    (∀ (other : JVal) (e : Err) (d : Document),
      translate other = Except.error e → translate other ≠ Except.ok d) := by
  refine ⟨?_, rfl, rfl, ?_⟩
  · unfold translate
    rw [ht, ok_bind]
    rw [if_neg (by simp [h1]), if_neg (by simp [h2]), if_neg (by simp [h3]),
      if_neg (by simp [h4])]
    rfl
  · intro other e d he hd
    rw [he] at hd
    exact Except.noConfusion hd

/-- Claim C7 witness: the concrete item of type 5 fails with the
unsupported-type error. -/
theorem c7_witness :
    translate (JVal.obj [("type", JVal.num 5)]) =
      Except.error (Err.unsupportedType "5") ∧
    (Err.unsupportedType "5").isUnsupportedTypeError = true ∧
    (Err.unsupportedType "5").isValidationError = false := by
  have h := c7_unsupported_type (JVal.obj [("type", JVal.num 5)]) (JVal.num 5)
    rfl (by decide) (by decide) (by decide) (by decide)
  exact ⟨h.1.trans (congrArg Except.error (by decide)), h.2.1, h.2.2.1⟩

/-! ## Missing login credentials (claim C6) -/

/-- Claim C6: a login item whose login record lacks the username key or the
password key makes translate fail with a KeyError, the error kind the
design taxonomy calls ValidationError; the orchestrator catches that class
specifically and skips the item, unlike generic errors. -/
theorem c6_login_missing_credentials (item login : JVal)
    (lkvs : List (String × JVal))
    (hty : item.get "type" = Except.ok (JVal.num 1))
    (hlogin : item.get "login" = Except.ok login)
    (hl : login = JVal.obj lkvs)
    (hmiss : login.hasKey "username" = false ∨ login.hasKey "password" = false) :
    ∃ k, translate item = Except.error (Err.keyError k) ∧
      (Err.keyError k).isValidationError = true ∧
      (Err.keyError k).pyClass = "KeyError" ∧
      orchestrator_handle (Err.keyError k) = OrchestratorAction.skipItem := by
  obtain ⟨kvs, hitem⟩ := get_ok_obj hty
  have hdisp : translate item = translate_login item >>= append_custom_fields item := by
    unfold translate
    rw [hty, ok_bind]
    rfl
  cases hname : item.get "name" with
  | error e =>
    have he : e = Err.keyError "name" := by
      rw [hitem] at hname
      exact get_error_on_obj hname
    refine ⟨"name", ?_, rfl, rfl, rfl⟩
    rw [hdisp]
    unfold translate_login
    rw [hname, he, error_bind, error_bind]
  | ok name =>
    have step : translate_login item =
        (login.get "username" >>= fun username =>
          login.get "password" >>= fun password =>
          item.get "notes" >>= fun notes =>
          login.get "uris" >>= fun urisJ =>
          asArr urisJ >>= fun uris =>
          translate_uris uris >>= fun hrefs =>
          login.getD "totp" JVal.null >>= fun totp =>
          pure { title := name, category := "LOGIN", sections := none,
                 fields :=
                   (if totp.truthy then
                     [ { id := some "username", sectionRef := none, type := "STRING",
                         purpose := some "USERNAME", label := some (JVal.str "username"), value := username },
                       { id := some "password", sectionRef := none, type := "CONCEALED",
                         purpose := some "PASSWORD", label := some (JVal.str "password"), value := password },
                       { id := some "notesPlain", sectionRef := none, type := "STRING",
                         purpose := some "NOTES", label := some (JVal.str "notes"), value := notes } ] ++
                       [ { id := some "totp", sectionRef := none, type := "OTP",
                           purpose := none, label := none,
                           value := JVal.str (totpValue name username totp) } ]
                   else
                     [ { id := some "username", sectionRef := none, type := "STRING",
                         purpose := some "USERNAME", label := some (JVal.str "username"), value := username },
                       { id := some "password", sectionRef := none, type := "CONCEALED",
                         purpose := some "PASSWORD", label := some (JVal.str "password"), value := password },
                       { id := some "notesPlain", sectionRef := none, type := "STRING",
                         purpose := some "NOTES", label := some (JVal.str "notes"), value := notes } ]),
                 urls := some hrefs }) := by
      unfold translate_login
      rw [hname, ok_bind, hlogin, ok_bind]
    rcases hmiss with hm | hm
    · have hu : login.get "username" = Except.error (Err.keyError "username") := by
        rw [hl] at hm ⊢
        exact get_eq_keyError_of_not_hasKey hm
      refine ⟨"username", ?_, rfl, rfl, rfl⟩
      rw [hdisp, step, hu, error_bind, error_bind]
    · cases husr : login.get "username" with
      | error e =>
        have he : e = Err.keyError "username" := by
          rw [hl] at husr
          exact get_error_on_obj husr
        refine ⟨"username", ?_, rfl, rfl, rfl⟩
        rw [hdisp, step, husr, he, error_bind, error_bind]
      | ok username =>
        have hp : login.get "password" = Except.error (Err.keyError "password") := by
          rw [hl] at hm ⊢
          exact get_eq_keyError_of_not_hasKey hm
        refine ⟨"password", ?_, rfl, rfl, rfl⟩
        rw [hdisp, step, husr, ok_bind, hp, error_bind, error_bind]

/-- Claim C6 witness: a concrete login item lacking the password key fails
with a KeyError that the orchestrator skips. -/
theorem c6_witness :
    ∃ k, translate (JVal.obj
        [ ("type", JVal.num 1), ("name", JVal.str "x"),
          ("login", JVal.obj [("username", JVal.str "u")]) ]) =
        Except.error (Err.keyError k) ∧
      (Err.keyError k).isValidationError = true ∧
      (Err.keyError k).pyClass = "KeyError" ∧
      orchestrator_handle (Err.keyError k) = OrchestratorAction.skipItem :=
  c6_login_missing_credentials
    (JVal.obj [ ("type", JVal.num 1), ("name", JVal.str "x"),
      ("login", JVal.obj [("username", JVal.str "u")]) ])
    (JVal.obj [("username", JVal.str "u")])
    [("username", JVal.str "u")]
    rfl rfl rfl (Or.inr rfl)

/-! ## Custom fields machinery (claims C2, C3, C4) -/

/-- Every field produced by the custom-fields loop sits in the
custom_fields section, has kind CONCEALED or STRING, and carries no purpose
and no id. -/
theorem translate_custom_fields_shape {fs : List JVal} {l : List Field}
    (h : translate_custom_fields fs = Except.ok l) :
    ∀ f ∈ l, f.sectionRef = some { id := "custom_fields", label := none } ∧
      (f.type = "CONCEALED" ∨ f.type = "STRING") ∧ f.purpose = none ∧ f.id = none := by
  induction fs generalizing l with
  | nil =>
    have hl : ([] : List Field) = l := Except.ok.inj h
    subst hl
    intro f hf
    exact absurd hf (List.not_mem_nil f)
  | cons g rest ih =>
    unfold translate_custom_fields at h
    obtain ⟨t, _, h⟩ := bind_ok h
    by_cases h3 : t.eqInt 3 = true
    · rw [if_pos h3] at h
      exact ih h
    · rw [if_neg h3] at h
      obtain ⟨name, _, h⟩ := bind_ok h
      obtain ⟨value, _, h⟩ := bind_ok h
      obtain ⟨tail, htl, h⟩ := bind_ok h
      have hl := (Except.ok.inj h).symm
      subst hl
      intro f hf
      rcases List.mem_cons.mp hf with hf | hf
      · subst hf
        refine ⟨rfl, ?_, rfl, rfl⟩
        by_cases h1 : t.eqInt 1 = true
        · left
          simp [h1]
        · right
          simp [h1]
      · exact ih htl f hf

/-- On well-formed custom fields the loop succeeds and computes exactly the
claimed per-field mapping, preserving order. -/
theorem translate_custom_fields_eq_spec {fs : List JVal}
    (hwf : ∀ f ∈ fs, customFieldWF f = true) :
    translate_custom_fields fs = Except.ok (fs.filterMap customFieldSpec) := by
  induction fs with
  | nil => rfl
  | cons g rest ih =>
    have hg := hwf g (List.mem_cons_self g rest)
    have hrest : ∀ f ∈ rest, customFieldWF f = true :=
      fun f hf => hwf f (List.mem_cons_of_mem g hf)
    cases g with
    | obj kvs =>
      cases ht : kvs.lookup "type" with
      | none => simp [customFieldWF, ht] at hg
      | some t =>
        cases t with
        | num n =>
          cases hn : kvs.lookup "name" with
          | none => simp [customFieldWF, ht, hn] at hg
          | some name =>
            cases hv : kvs.lookup "value" with
            | none => simp [customFieldWF, ht, hn, hv] at hg
            | some value =>
              have g1 : (JVal.obj kvs).get "type" = Except.ok (JVal.num n) := by
                simp [JVal.get, ht]
              have g2 : (JVal.obj kvs).get "name" = Except.ok name := by
                simp [JVal.get, hn]
              have g3 : (JVal.obj kvs).get "value" = Except.ok value := by
                simp [JVal.get, hv]
              unfold translate_custom_fields
              rw [g1, ok_bind]
              by_cases h3 : (JVal.num n).eqInt 3 = true
              · rw [if_pos h3, ih hrest]
                simp [List.filterMap_cons, customFieldSpec, ht, hn, hv, h3]
              · rw [if_neg h3, g2, ok_bind, g3, ok_bind, ih hrest, ok_bind]
                simp [List.filterMap_cons, customFieldSpec, ht, hn, hv, h3]
                rfl
        | null => simp [customFieldWF, ht] at hg
        | str s => simp [customFieldWF, ht] at hg
        | bool b => simp [customFieldWF, ht] at hg
        | arr xs => simp [customFieldWF, ht] at hg
        | obj kvs2 => simp [customFieldWF, ht] at hg
    | null => simp [customFieldWF] at hg
    | str s => simp [customFieldWF] at hg
    | num n => simp [customFieldWF] at hg
    | bool b => simp [customFieldWF] at hg
    | arr xs => simp [customFieldWF] at hg

/-- Inversion of a successful custom-fields pass: the source custom fields
were read and translated, and the document is unchanged when none survive,
else extended by exactly one custom_fields section and the translated
fields after the existing ones. -/
theorem append_custom_fields_ok {item : JVal} {doc d : Document}
    (h : append_custom_fields item doc = Except.ok d) :
    ∃ fsJ fs l, item.getD "fields" (JVal.arr []) = Except.ok fsJ ∧
      asArr fsJ = Except.ok fs ∧ translate_custom_fields fs = Except.ok l ∧
      ((l = [] ∧ d = doc) ∨
       (l ≠ [] ∧ d = { doc with
          sections := some (doc.sections.getD [] ++ [customFieldsSection]),
          fields := doc.fields ++ l })) := by
  unfold append_custom_fields at h
  obtain ⟨fsJ, h1, h⟩ := bind_ok h
  obtain ⟨fs, h2, h⟩ := bind_ok h
  obtain ⟨l, h3, h⟩ := bind_ok h
  refine ⟨fsJ, fs, l, h1, h2, h3, ?_⟩
  by_cases hl : l.isEmpty = true
  · rw [if_pos hl] at h
    exact Or.inl ⟨List.isEmpty_iff.mp hl, (Except.ok.inj h).symm⟩
  · rw [if_neg hl] at h
    refine Or.inr ⟨?_, (Except.ok.inj h).symm⟩
    intro hnil
    exact hl (by simp [hnil])

/-! ## TOTP field (claim C2) -/

/-- Claim C2 counterexample: for the concrete login item named My Site with
username alice and seed ABC123, the translated document carries exactly one
one-time-password field, but its value interpolates the name verbatim and
differs from the URL-encoded URI the claim asserts. -/
theorem c2_counterexample :
    (∃ d, translate (JVal.obj
        [ ("type", JVal.num 1), ("name", JVal.str "My Site"), ("notes", JVal.null),
          ("login", JVal.obj
            [ ("username", JVal.str "alice"), ("password", JVal.str "pw"),
              ("uris", JVal.arr []), ("totp", JVal.str "ABC123") ]) ]) =
        Except.ok d ∧
      d.fields.filterMap otpFieldValue =
        [JVal.str "otpauth://totp/My Site:alice?secret=ABC123"]) ∧
    "otpauth://totp/My Site:alice?secret=ABC123" ≠
      totpValueSpec "My Site" "alice" "ABC123" := by
  refine ⟨⟨_, rfl, rfl⟩, ?_⟩
  decide

/-- Claim C2 (amended): for every login item whose totp seed is truthy,
translate appends exactly one one-time-password field, whose value is the
otpauth URI with the raw (not URL-encoded) name and username interpolated;
when the seed is absent or falsy no one-time-password field exists in the
output. -/
theorem c2_totp_field (item login t name username totp : JVal) (d : Document)
    (hty : item.get "type" = Except.ok t) (htv : t.eqInt 1 = true)
    (hname : item.get "name" = Except.ok name)
    (hlogin : item.get "login" = Except.ok login)
    (hu : login.get "username" = Except.ok username)
    (htotp : login.getD "totp" JVal.null = Except.ok totp)
    (hok : translate item = Except.ok d) :
    (totp.truthy = true →
      d.fields.filterMap otpFieldValue = [JVal.str (totpValue name username totp)]) ∧
    (totp.truthy = false →
      d.fields.filterMap otpFieldValue = []) := by
  unfold translate at hok
  rw [hty, ok_bind, if_pos htv] at hok
  obtain ⟨base, hbase, happ⟩ := bind_ok hok
  unfold translate_login at hbase
  rw [hname, ok_bind, hlogin, ok_bind, hu, ok_bind] at hbase
  obtain ⟨password, _, hbase⟩ := bind_ok hbase
  obtain ⟨notes, _, hbase⟩ := bind_ok hbase
  obtain ⟨urisJ, _, hbase⟩ := bind_ok hbase
  obtain ⟨uris, _, hbase⟩ := bind_ok hbase
  obtain ⟨hrefs, _, hbase⟩ := bind_ok hbase
  obtain ⟨totp2, htotp2, hbase⟩ := bind_ok hbase
  rw [htotp] at htotp2
  have htt : totp = totp2 := Except.ok.inj htotp2
  subst htt
  have hbe := (Except.ok.inj hbase).symm
  subst hbe
  obtain ⟨fsJ, fs, l, _, _, hl, hcase⟩ := append_custom_fields_ok happ
  have hshape := translate_custom_fields_shape hl
  have hlnil : l.filterMap otpFieldValue = [] := by
    rw [List.filterMap_eq_nil_iff]
    intro f hf
    rcases (hshape f hf).2.1 with h | h <;> simp [otpFieldValue, h]
  have hfields : d.fields =
      (if totp.truthy then
        [ { id := some "username", sectionRef := none, type := "STRING",
            purpose := some "USERNAME", label := some (JVal.str "username"), value := username },
          { id := some "password", sectionRef := none, type := "CONCEALED",
            purpose := some "PASSWORD", label := some (JVal.str "password"), value := password },
          { id := some "notesPlain", sectionRef := none, type := "STRING",
            purpose := some "NOTES", label := some (JVal.str "notes"), value := notes } ] ++
          [ { id := some "totp", sectionRef := none, type := "OTP",
              purpose := none, label := none,
              value := JVal.str (totpValue name username totp) } ]
      else
        [ { id := some "username", sectionRef := none, type := "STRING",
            purpose := some "USERNAME", label := some (JVal.str "username"), value := username },
          { id := some "password", sectionRef := none, type := "CONCEALED",
            purpose := some "PASSWORD", label := some (JVal.str "password"), value := password },
          { id := some "notesPlain", sectionRef := none, type := "STRING",
            purpose := some "NOTES", label := some (JVal.str "notes"), value := notes } ]) ++
      l := by
    rcases hcase with ⟨hnil, rfl⟩ | ⟨_, rfl⟩
    · subst hnil
      simp
    · rfl
  constructor
  · intro htr
    rw [hfields, if_pos htr, List.filterMap_append, List.filterMap_append, hlnil]
    simp [otpFieldValue]
  · intro htr
    rw [hfields, if_neg (by simp [htr]), List.filterMap_append, hlnil]
    simp [otpFieldValue]

/-- Claim C2 witness: the concrete example of the claim, login Site with
username alice and seed ABC123, yields exactly the raw URI, which here
coincides with the URL-encoded form. -/
theorem c2_witness :
    ∃ d, translate (JVal.obj
        [ ("type", JVal.num 1), ("name", JVal.str "Site"), ("notes", JVal.null),
          ("login", JVal.obj
            [ ("username", JVal.str "alice"), ("password", JVal.str "pw"),
              ("uris", JVal.arr []), ("totp", JVal.str "ABC123") ]) ]) =
      Except.ok d ∧
    d.fields.filterMap otpFieldValue =
      [JVal.str "otpauth://totp/Site:alice?secret=ABC123"] := by
  refine ⟨_, rfl, ?_⟩
  have h := (c2_totp_field
    (JVal.obj [ ("type", JVal.num 1), ("name", JVal.str "Site"), ("notes", JVal.null),
      ("login", JVal.obj [ ("username", JVal.str "alice"), ("password", JVal.str "pw"),
        ("uris", JVal.arr []), ("totp", JVal.str "ABC123") ]) ])
    (JVal.obj [ ("username", JVal.str "alice"), ("password", JVal.str "pw"),
      ("uris", JVal.arr []), ("totp", JVal.str "ABC123") ])
    (JVal.num 1) (JVal.str "Site") (JVal.str "alice") (JVal.str "ABC123")
    _ rfl (by decide) rfl rfl rfl rfl rfl).1 (by decide)
  exact h.trans (congrArg (fun s => [JVal.str s]) (by decide))

/-! ## The custom-fields pass (claim C4) -/

/-- After a successful custom-fields pass over well-formed source custom
fields, the document fields are the base fields followed by the claimed
mapping of the custom fields. -/
theorem fields_after_append {item : JVal} {fs : List JVal} {base d : Document}
    (hfs : item.getD "fields" (JVal.arr []) = Except.ok (JVal.arr fs))
    (hwf : ∀ f ∈ fs, customFieldWF f = true)
    (happ : append_custom_fields item base = Except.ok d) :
    d.fields = base.fields ++ fs.filterMap customFieldSpec := by
  obtain ⟨fsJ, fs2, l, h1, h2, hl, hcase⟩ := append_custom_fields_ok happ
  rw [hfs] at h1
  have hj : JVal.arr fs = fsJ := Except.ok.inj h1
  subst hj
  have hf2 : fs = fs2 := Except.ok.inj h2
  subst hf2
  rw [translate_custom_fields_eq_spec hwf] at hl
  have hlf : fs.filterMap customFieldSpec = l := Except.ok.inj hl
  subst hlf
  rcases hcase with ⟨hnil, rfl⟩ | ⟨_, rfl⟩
  · rw [hnil]
    simp
  · rfl

/-- Claim C4: on every supported item whose custom fields are well formed,
the document translate returns consists of the per-kind translator fields
followed by exactly the claimed mapping of the source custom fields in
source order: LINKED fields dropped, the rest in the custom_fields section
with kind CONCEALED for source kind 1 and STRING otherwise, label the
source name, value the source value, no purpose. -/
theorem c4_custom_fields_pass (item t : JVal) (fs : List JVal) (d : Document)
    (hty : item.get "type" = Except.ok t)
    (hfs : item.getD "fields" (JVal.arr []) = Except.ok (JVal.arr fs))
    (hwf : ∀ f ∈ fs, customFieldWF f = true)
    (hok : translate item = Except.ok d) :
    ∃ base : Document,
      (if t.eqInt 1 then translate_login item
       else if t.eqInt 2 then translate_secure_note item
       else if t.eqInt 3 then translate_card item
       else if t.eqInt 4 then translate_identity item
       else Except.error (Err.unsupportedType (pyStr t))) = Except.ok base ∧
      d.fields = base.fields ++ fs.filterMap customFieldSpec := by
  unfold translate at hok
  rw [hty, ok_bind] at hok
  by_cases h1 : t.eqInt 1 = true
  · rw [if_pos h1] at hok ⊢
    obtain ⟨base, hbase, happ⟩ := bind_ok hok
    exact ⟨base, hbase, fields_after_append hfs hwf happ⟩
  · rw [if_neg h1] at hok ⊢
    by_cases h2 : t.eqInt 2 = true
    · rw [if_pos h2] at hok ⊢
      obtain ⟨base, hbase, happ⟩ := bind_ok hok
      exact ⟨base, hbase, fields_after_append hfs hwf happ⟩
    · rw [if_neg h2] at hok ⊢
      by_cases h3 : t.eqInt 3 = true
      · rw [if_pos h3] at hok ⊢
        obtain ⟨base, hbase, happ⟩ := bind_ok hok
        exact ⟨base, hbase, fields_after_append hfs hwf happ⟩
      · rw [if_neg h3] at hok ⊢
        by_cases h4 : t.eqInt 4 = true
        · rw [if_pos h4] at hok ⊢
          obtain ⟨base, hbase, happ⟩ := bind_ok hok
          exact ⟨base, hbase, fields_after_append hfs hwf happ⟩
        · rw [if_neg h4] at hok
          exact Except.noConfusion hok

/-- Claim C4 witness: a secure note with one text, one hidden and one
linked custom field keeps the text and hidden fields in order after the
notes field, maps hidden to CONCEALED and text to STRING, and drops the
linked field. -/
theorem c4_witness :
    ∃ base : Document,
      (if (JVal.num 2).eqInt 1 then translate_login (JVal.obj
          [ ("type", JVal.num 2), ("name", JVal.str "n"), ("notes", JVal.null),
            ("fields", JVal.arr
              [ JVal.obj [("type", JVal.num 0), ("name", JVal.str "a"), ("value", JVal.str "v0")],
                JVal.obj [("type", JVal.num 1), ("name", JVal.str "b"), ("value", JVal.str "v1")],
                JVal.obj [("type", JVal.num 3), ("name", JVal.str "c"), ("value", JVal.str "v2")] ]) ])
       else if (JVal.num 2).eqInt 2 then translate_secure_note (JVal.obj
          [ ("type", JVal.num 2), ("name", JVal.str "n"), ("notes", JVal.null),
            ("fields", JVal.arr
              [ JVal.obj [("type", JVal.num 0), ("name", JVal.str "a"), ("value", JVal.str "v0")],
                JVal.obj [("type", JVal.num 1), ("name", JVal.str "b"), ("value", JVal.str "v1")],
                JVal.obj [("type", JVal.num 3), ("name", JVal.str "c"), ("value", JVal.str "v2")] ]) ])
       else if (JVal.num 2).eqInt 3 then translate_card (JVal.obj
          [ ("type", JVal.num 2), ("name", JVal.str "n"), ("notes", JVal.null),
            ("fields", JVal.arr
              [ JVal.obj [("type", JVal.num 0), ("name", JVal.str "a"), ("value", JVal.str "v0")],
                JVal.obj [("type", JVal.num 1), ("name", JVal.str "b"), ("value", JVal.str "v1")],
                JVal.obj [("type", JVal.num 3), ("name", JVal.str "c"), ("value", JVal.str "v2")] ]) ])
       else if (JVal.num 2).eqInt 4 then translate_identity (JVal.obj
          [ ("type", JVal.num 2), ("name", JVal.str "n"), ("notes", JVal.null),
            ("fields", JVal.arr
              [ JVal.obj [("type", JVal.num 0), ("name", JVal.str "a"), ("value", JVal.str "v0")],
                JVal.obj [("type", JVal.num 1), ("name", JVal.str "b"), ("value", JVal.str "v1")],
                JVal.obj [("type", JVal.num 3), ("name", JVal.str "c"), ("value", JVal.str "v2")] ]) ])
       else Except.error (Err.unsupportedType (pyStr (JVal.num 2)))) = Except.ok base ∧
      ({ title := JVal.str "n", category := "SECURE_NOTE",
         sections := some [customFieldsSection],
         fields :=
           [ { id := some "notesPlain", sectionRef := none, type := "STRING",
               purpose := some "NOTES", label := some (JVal.str "Notes"), value := JVal.null },
             { id := none, sectionRef := some { id := "custom_fields", label := none },
               type := "STRING", purpose := none, label := some (JVal.str "a"),
               value := JVal.str "v0" },
             { id := none, sectionRef := some { id := "custom_fields", label := none },
               type := "CONCEALED", purpose := none, label := some (JVal.str "b"),
               value := JVal.str "v1" } ],
         urls := none } : Document).fields =
        base.fields ++
          [ JVal.obj [("type", JVal.num 0), ("name", JVal.str "a"), ("value", JVal.str "v0")],
            JVal.obj [("type", JVal.num 1), ("name", JVal.str "b"), ("value", JVal.str "v1")],
            JVal.obj [("type", JVal.num 3), ("name", JVal.str "c"), ("value", JVal.str "v2")]
          ].filterMap customFieldSpec :=
  c4_custom_fields_pass
    (JVal.obj
      [ ("type", JVal.num 2), ("name", JVal.str "n"), ("notes", JVal.null),
        ("fields", JVal.arr
          [ JVal.obj [("type", JVal.num 0), ("name", JVal.str "a"), ("value", JVal.str "v0")],
            JVal.obj [("type", JVal.num 1), ("name", JVal.str "b"), ("value", JVal.str "v1")],
            JVal.obj [("type", JVal.num 3), ("name", JVal.str "c"), ("value", JVal.str "v2")] ]) ])
    (JVal.num 2)
    [ JVal.obj [("type", JVal.num 0), ("name", JVal.str "a"), ("value", JVal.str "v0")],
      JVal.obj [("type", JVal.num 1), ("name", JVal.str "b"), ("value", JVal.str "v1")],
      JVal.obj [("type", JVal.num 3), ("name", JVal.str "c"), ("value", JVal.str "v2")] ]
    _ rfl rfl (by decide) rfl

/-! ## Section cross-reference invariant (claim C3) -/

/-- A login document declares no sections and none of its fields references
one. -/
theorem translate_login_shape {item : JVal} {b : Document}
    (h : translate_login item = Except.ok b) :
    b.sections = none ∧ ∀ f ∈ b.fields, f.sectionRef = none := by
  unfold translate_login at h
  obtain ⟨name, _, h⟩ := bind_ok h
  obtain ⟨login, _, h⟩ := bind_ok h
  obtain ⟨username, _, h⟩ := bind_ok h
  obtain ⟨password, _, h⟩ := bind_ok h
  obtain ⟨notes, _, h⟩ := bind_ok h
  obtain ⟨urisJ, _, h⟩ := bind_ok h
  obtain ⟨uris, _, h⟩ := bind_ok h
  obtain ⟨hrefs, _, h⟩ := bind_ok h
  obtain ⟨totp, _, h⟩ := bind_ok h
  have hb := (Except.ok.inj h).symm
  subst hb
  refine ⟨rfl, ?_⟩
  intro f hf
  by_cases htr : totp.truthy = true
  · simp only [htr] at hf
    simp at hf
    rcases hf with rfl | rfl | rfl | rfl <;> rfl
  · simp only [Bool.not_eq_true] at htr
    simp only [htr] at hf
    simp at hf
    rcases hf with rfl | rfl | rfl <;> rfl

/-- A secure note document declares no sections and its one field
references none. -/
theorem translate_secure_note_shape {item : JVal} {b : Document}
    (h : translate_secure_note item = Except.ok b) :
    b.sections = none ∧ ∀ f ∈ b.fields, f.sectionRef = none := by
  unfold translate_secure_note at h
  obtain ⟨name, _, h⟩ := bind_ok h
  obtain ⟨notes, _, h⟩ := bind_ok h
  have hb := (Except.ok.inj h).symm
  subst hb
  refine ⟨rfl, ?_⟩
  intro f hf
  simp at hf
  subst hf
  rfl

/-- A card document declares no sections and none of its fields references
one. -/
theorem translate_card_shape {item : JVal} {b : Document}
    (h : translate_card item = Except.ok b) :
    b.sections = none ∧ ∀ f ∈ b.fields, f.sectionRef = none := by
  unfold translate_card at h
  obtain ⟨name, _, h⟩ := bind_ok h
  obtain ⟨notes, _, h⟩ := bind_ok h
  obtain ⟨card, _, h⟩ := bind_ok h
  obtain ⟨cardholderName, _, h⟩ := bind_ok h
  obtain ⟨brand, _, h⟩ := bind_ok h
  obtain ⟨number, _, h⟩ := bind_ok h
  obtain ⟨code, _, h⟩ := bind_ok h
  obtain ⟨expMonth, _, h⟩ := bind_ok h
  obtain ⟨expYear, _, h⟩ := bind_ok h
  obtain ⟨expiry, _, h⟩ := bind_ok h
  have hb := (Except.ok.inj h).symm
  subst hb
  refine ⟨rfl, ?_⟩
  intro f hf
  simp at hf
  rcases hf with rfl | rfl | rfl | rfl | rfl | rfl <;> rfl

/-- An identity document declares exactly the three fixed sections and
every section reference of its fields points into them. -/
theorem translate_identity_shape {item : JVal} {b : Document}
    (h : translate_identity item = Except.ok b) :
    b.sections = some identitySections ∧
    ∀ f ∈ b.fields, ∀ r, f.sectionRef = some r →
      r.id ∈ (["address", "name", "internet"] : List String) := by
  unfold translate_identity at h
  obtain ⟨name, _, h⟩ := bind_ok h
  obtain ⟨notes, _, h⟩ := bind_ok h
  obtain ⟨identity, _, h⟩ := bind_ok h
  obtain ⟨title, _, h⟩ := bind_ok h
  obtain ⟨firstName, _, h⟩ := bind_ok h
  obtain ⟨middleName, _, h⟩ := bind_ok h
  obtain ⟨lastName, _, h⟩ := bind_ok h
  obtain ⟨company, _, h⟩ := bind_ok h
  obtain ⟨address, _, h⟩ := bind_ok h
  obtain ⟨phone, _, h⟩ := bind_ok h
  obtain ⟨username, _, h⟩ := bind_ok h
  obtain ⟨email, _, h⟩ := bind_ok h
  have hb := (Except.ok.inj h).symm
  subst hb
  refine ⟨rfl, ?_⟩
  intro f hf
  simp at hf
  rcases hf with rfl | rfl | rfl | rfl | rfl | rfl | rfl | rfl | rfl | rfl <;>
    intro r hr <;>
    first
      | exact Option.noConfusion hr
      | (injection hr with h2; subst h2; decide)

/-- Claim C3: every document translate returns satisfies the section
cross-reference invariant, and it carries at most one custom_fields
section: the custom-fields pass adds exactly one such section when it
appends fields, initializing the sections list when the per-kind
translator declared none, and never a duplicate. -/
theorem c3_section_invariant (item : JVal) (d : Document)
    (hok : translate item = Except.ok d) :
    d.secInvariant ∧ d.sectionIds.count "custom_fields" ≤ 1 := by
  unfold translate at hok
  obtain ⟨t, hty, hok⟩ := bind_ok hok
  have main : ∀ base : Document,
      append_custom_fields item base = Except.ok d →
      base.sectionIds.Nodup → "custom_fields" ∉ base.sectionIds →
      (∀ f ∈ base.fields, ∀ r, f.sectionRef = some r → r.id ∈ base.sectionIds) →
      d.secInvariant ∧ d.sectionIds.count "custom_fields" ≤ 1 := by
    intro base happ hnodup hcf hrefs
    obtain ⟨fsJ, fs, l, _, _, hl, hcase⟩ := append_custom_fields_ok happ
    have hshape := translate_custom_fields_shape hl
    rcases hcase with ⟨hnil, rfl⟩ | ⟨hne, rfl⟩
    · constructor
      · intro f hff r hr
        exact List.count_eq_one_of_mem hnodup (hrefs f hff r hr)
      · rw [List.count_eq_zero_of_not_mem hcf]
        omega
    · have hids : ({ base with
          sections := some (base.sections.getD [] ++ [customFieldsSection]),
          fields := base.fields ++ l } : Document).sectionIds =
          base.sectionIds ++ ["custom_fields"] := by
        simp [Document.sectionIds, customFieldsSection]
      constructor
      · intro f hff r hr
        rw [hids, List.count_append]
        have hff2 : f ∈ base.fields ++ l := hff
        rcases List.mem_append.mp hff2 with hfb | hfl
        · have hid := hrefs f hfb r hr
          have hone : base.sectionIds.count r.id = 1 :=
            List.count_eq_one_of_mem hnodup hid
          have hzero : (["custom_fields"] : List String).count r.id = 0 := by
            rw [List.count_eq_zero_of_not_mem]
            intro hmem
            simp at hmem
            rw [hmem] at hid
            exact hcf hid
          omega
        · have hrc := (hshape f hfl).1
          rw [hrc] at hr
          have hreq : r = { id := "custom_fields", label := none } :=
            (Option.some.inj hr).symm
          subst hreq
          rw [List.count_eq_zero_of_not_mem hcf]
          decide
      · rw [hids, List.count_append, List.count_eq_zero_of_not_mem hcf]
        decide
  by_cases h1 : t.eqInt 1 = true
  · rw [if_pos h1] at hok
    obtain ⟨base, hbase, happ⟩ := bind_ok hok
    obtain ⟨hs, hf⟩ := translate_login_shape hbase
    refine main base happ (by simp [Document.sectionIds, hs]) (by simp [Document.sectionIds, hs]) ?_
    intro f hff r hr
    rw [hf f hff] at hr
    exact Option.noConfusion hr
  · rw [if_neg h1] at hok
    by_cases h2 : t.eqInt 2 = true
    · rw [if_pos h2] at hok
      obtain ⟨base, hbase, happ⟩ := bind_ok hok
      obtain ⟨hs, hf⟩ := translate_secure_note_shape hbase
      refine main base happ (by simp [Document.sectionIds, hs]) (by simp [Document.sectionIds, hs]) ?_
      intro f hff r hr
      rw [hf f hff] at hr
      exact Option.noConfusion hr
    · rw [if_neg h2] at hok
      by_cases h3 : t.eqInt 3 = true
      · rw [if_pos h3] at hok
        obtain ⟨base, hbase, happ⟩ := bind_ok hok
        obtain ⟨hs, hf⟩ := translate_card_shape hbase
        refine main base happ (by simp [Document.sectionIds, hs]) (by simp [Document.sectionIds, hs]) ?_
        intro f hff r hr
        rw [hf f hff] at hr
        exact Option.noConfusion hr
      · rw [if_neg h3] at hok
        by_cases h4 : t.eqInt 4 = true
        · rw [if_pos h4] at hok
          obtain ⟨base, hbase, happ⟩ := bind_ok hok
          obtain ⟨hs, hf⟩ := translate_identity_shape hbase
          refine main base happ ?_ ?_ ?_
          · rw [Document.sectionIds, hs]
            decide
          · rw [Document.sectionIds, hs]
            decide
          · intro f hff r hr
            have hmem := hf f hff r hr
            rw [Document.sectionIds, hs]
            simpa [identitySections] using hmem
        · rw [if_neg h4] at hok
          exact Except.noConfusion hok

/-- Claim C3 witness: a concrete secure note with one custom field gets a
document satisfying the invariant with exactly one custom_fields
section. -/
theorem c3_witness :
    ({ title := JVal.str "n", category := "SECURE_NOTE",
       sections := some [customFieldsSection],
       fields :=
         [ { id := some "notesPlain", sectionRef := none, type := "STRING",
             purpose := some "NOTES", label := some (JVal.str "Notes"), value := JVal.null },
           { id := none, sectionRef := some { id := "custom_fields", label := none },
             type := "STRING", purpose := none, label := some (JVal.str "k"),
             value := JVal.str "v" } ],
       urls := none } : Document).secInvariant ∧
    ({ title := JVal.str "n", category := "SECURE_NOTE",
       sections := some [customFieldsSection],
       fields :=
         [ { id := some "notesPlain", sectionRef := none, type := "STRING",
             purpose := some "NOTES", label := some (JVal.str "Notes"), value := JVal.null },
           { id := none, sectionRef := some { id := "custom_fields", label := none },
             type := "STRING", purpose := none, label := some (JVal.str "k"),
             value := JVal.str "v" } ],
       urls := none } : Document).sectionIds.count "custom_fields" ≤ 1 :=
  c3_section_invariant
    (JVal.obj
      [ ("type", JVal.num 2), ("name", JVal.str "n"), ("notes", JVal.null),
        ("fields", JVal.arr
          [ JVal.obj [("type", JVal.num 0), ("name", JVal.str "k"), ("value", JVal.str "v")] ]) ])
    _ rfl
